import Mathlib

/-!
Shallow embedding of `src/main.py` (AWS Resource Auditor & Self-Analyzing
Batch Job) and proofs of the specification claims about it.

The cloud provider's API calls are modelled as explicit inputs:
each fallible network call becomes an `Except String α` value (or a
function producing one), where `.error` stands for a raised
`ClientError` of the SDK and `.ok` for a successful response.
-/

/-- Python substring test `pat in s` on strings. -/
def strContains (s pat : String) : Bool :=
  decide (pat.data <:+: s.data)

/-! ## Data model: security-group rules and findings -/

/-- One entry of `describe_security_group_rules`'s `SecurityGroupRules`
list, restricted to the fields `check_security_groups` reads.  Each field
is optional because the code accesses them with `dict.get`. -/
structure SGRule where
  FromPort : Option Int
  IpProtocol : Option String
  CidrIpv4 : Option String
deriving Repr, DecidableEq

/-- A security finding as appended in `check_security_groups`
(`main.py` lines 74–79). -/
structure SecurityFinding where
  SecurityGroupId : String
  Port : Int
  Protocol : String
  CIDR : Option String
deriving Repr, DecidableEq

/-- The body of the per-rule loop of `check_security_groups`
(`main.py` lines 70–79): returns the finding appended for `rule`, if any.
`rule.get('FromPort') in [22, 3389]`, `rule.get('IpProtocol') == 'tcp'`,
`'0.0.0.0/0' in rule.get('CidrIpv4', '')`; the appended dict reads
`rule['FromPort']` and `rule['IpProtocol']`, which are present whenever
the guards hold (defaults below are never reached). -/
def ruleFinding (sg_id : String) (rule : SGRule) : Option SecurityFinding :=
  if (rule.FromPort = some 22 ∨ rule.FromPort = some 3389) ∧
      rule.IpProtocol = some "tcp" then
    if strContains (rule.CidrIpv4.getD "") "0.0.0.0/0" then
      some { SecurityGroupId := sg_id
             Port := rule.FromPort.getD 0
             Protocol := rule.IpProtocol.getD ""
             CIDR := rule.CidrIpv4 }
    else none
  else none

/-- The findings `check_security_groups` collects for one security
group's rule list (the inner loop over `sg_response['SecurityGroupRules']`). -/
def checkGroupRules (sg_id : String) (rules : List SGRule) : List SecurityFinding :=
  rules.filterMap (ruleFinding sg_id)

/-! ## Data model: instances -/

/-- An EC2 instance description, restricted to the fields the auditor
reads.  `StateName` is `instance['State']['Name']`;
`BlockDeviceMappings` keeps only the device names (the code only tests
the list for non-emptiness); `SecurityGroups` keeps only the `GroupId`
of each entry (the only field read). -/
structure EC2Instance where
  InstanceId : String
  StateName : String
  InstanceType : String
  BlockDeviceMappings : List String
  SecurityGroups : List String
deriving Repr, DecidableEq

/-- Embeds `check_security_groups` (`main.py` lines 58–83): for each security
group of the instance, query its rules and collect findings; a
`ClientError` on one group's query is caught and that group skipped. -/
def check_security_groups (describeRules : String → Except String (List SGRule))
    (inst : EC2Instance) : List SecurityFinding :=
  inst.SecurityGroups.flatMap fun sg_id =>
    match describeRules sg_id with
    | .ok rules => checkGroupRules sg_id rules
    | .error _ => []

/-- A utilization finding as appended in `check_instance_utilization`
(`main.py` lines 94–98 and 104–109).  `current_type` is present only on
the `NON_FREE_TIER_TYPE` finding. -/
structure UtilizationFinding where
  issue : String
  message : String
  instance_id : String
  current_type : Option String
deriving Repr, DecidableEq

/-- Mirrors `free_tier_types` (`main.py` line 101). -/
def free_tier_types : List String := ["t2.micro", "t3.micro", "t4g.micro"]

/-- Embeds `check_instance_utilization` (`main.py` lines 85–111): flag stopped
instances with block-device mappings, and running instances whose type
is outside the free-tier allow-list. -/
def check_instance_utilization (inst : EC2Instance) : List UtilizationFinding :=
  (if inst.StateName = "stopped" ∧ inst.BlockDeviceMappings ≠ [] then
    [{ issue := "STOPPED_INSTANCE"
       message := "Instance is stopped but still incurring EBS storage costs"
       instance_id := inst.InstanceId
       current_type := none }]
   else []) ++
  (if inst.InstanceType ∉ free_tier_types ∧ inst.StateName = "running" then
    [{ issue := "NON_FREE_TIER_TYPE"
       message := "Instance type " ++ inst.InstanceType ++
         " may incur costs. Free tier types: t2.micro, t3.micro, t4g.micro"
       instance_id := inst.InstanceId
       current_type := some inst.InstanceType }]
   else [])

/-! ## Report builder -/

/-- One entry of a findings list in the audit report:
`{'instance_id': ..., 'issues': [...]}`. -/
structure FindingEntry (α : Type) where
  instance_id : String
  issues : List α
deriving Repr, DecidableEq

/-- The `summary` part of the audit report (`main.py` lines 122–126). -/
structure AuditSummary where
  total_instances : Nat
  instances_with_security_issues : Nat
  instances_with_utilization_issues : Nat
deriving Repr, DecidableEq

/-- The audit report (`main.py` lines 116–127), without the build
timestamp (the claims do not mention it). -/
structure AuditReport where
  security_issues : List (FindingEntry SecurityFinding)
  utilization_issues : List (FindingEntry UtilizationFinding)
  summary : AuditSummary
deriving Repr, DecidableEq

/-- The body of the per-instance loop of `generate_audit_report`
(`main.py` lines 129–148), updating the report under construction. -/
def auditStep (describeRules : String → Except String (List SGRule))
    (report : AuditReport) (inst : EC2Instance) : AuditReport :=
  let security_issues := check_security_groups describeRules inst
  let report1 :=
    if security_issues ≠ [] then
      { report with
        security_issues :=
          report.security_issues ++ [⟨inst.InstanceId, security_issues⟩]
        summary := { report.summary with
          instances_with_security_issues :=
            report.summary.instances_with_security_issues + 1 } }
    else report
  let utilization_issues := check_instance_utilization inst
  if utilization_issues ≠ [] then
    { report1 with
      utilization_issues :=
        report1.utilization_issues ++ [⟨inst.InstanceId, utilization_issues⟩]
      summary := { report1.summary with
        instances_with_utilization_issues :=
          report1.summary.instances_with_utilization_issues + 1 } }
  else report1

/-- Embeds `generate_audit_report` (`main.py` lines 113–150): the initial report
has `total_instances = len(instances)` and zero counters, then the loop
runs over the instances in order. -/
def generate_audit_report (describeRules : String → Except String (List SGRule))
    (instances : List EC2Instance) : AuditReport :=
  instances.foldl (auditStep describeRules)
    { security_issues := []
      utilization_issues := []
      summary := { total_instances := instances.length
                   instances_with_security_issues := 0
                   instances_with_utilization_issues := 0 } }

/-! ## Report publisher -/

/-- A UTC wall-clock instant as `datetime.utcnow()` provides it,
restricted to the fields `'%Y%m%d-%H%M%S'` formats.  Python's
`datetime` guarantees `1 ≤ year ≤ 9999`, `1 ≤ month ≤ 12`,
`1 ≤ day ≤ 31`, `hour ≤ 23`, `minute ≤ 59`, `second ≤ 59`. -/
structure DateTimeUTC where
  year : Nat
  month : Nat
  day : Nat
  hour : Nat
  minute : Nat
  second : Nat
deriving Repr, DecidableEq

/-- The ranges `datetime.utcnow()` guarantees for its fields. -/
def DateTimeUTC.Valid (dt : DateTimeUTC) : Prop :=
  1 ≤ dt.year ∧ dt.year ≤ 9999 ∧ 1 ≤ dt.month ∧ dt.month ≤ 12 ∧
  1 ≤ dt.day ∧ dt.day ≤ 31 ∧ dt.hour ≤ 23 ∧ dt.minute ≤ 59 ∧ dt.second ≤ 59

instance (dt : DateTimeUTC) : Decidable dt.Valid := by
  unfold DateTimeUTC.Valid; infer_instance

/-- Decimal digits of `n`, zero-padded on the left to width `w`
(the behaviour of `%Y`, `%m`, … for in-range field values). -/
def padChars : Nat → Nat → List Char
  | 0, _ => []
  | w + 1, n => padChars w (n / 10) ++ [Char.ofNat (48 + n % 10)]

/-- Embeds `datetime.utcnow().strftime('%Y%m%d-%H%M%S')`. -/
def strftimeYmdHMS (dt : DateTimeUTC) : String :=
  String.mk (padChars 4 dt.year) ++ String.mk (padChars 2 dt.month) ++
    String.mk (padChars 2 dt.day) ++ "-" ++ String.mk (padChars 2 dt.hour) ++
    String.mk (padChars 2 dt.minute) ++ String.mk (padChars 2 dt.second)

/-- Embeds `upload_to_s3` (`main.py` lines 152–166): build the key from the
current UTC time and the suffix, attempt the object write (modelled by
`putResult`), and return the key on success or `none` on a caught
`ClientError`. -/
def upload_to_s3 (putResult : Except String Unit) (now : DateTimeUTC)
    (key_suffix : String) : Option String :=
  let key := "audit-reports/ec2-audit-" ++ strftimeYmdHMS now ++ "-" ++ key_suffix
  match putResult with
  | .ok _ => some key
  | .error _ => none

/-! ## Self-log analyzer -/

/-- One CloudWatch log event, restricted to the `message` field (the
only one `analyze_own_logs` reads). -/
structure LogEvent where
  message : String
deriving Repr, DecidableEq

/-- The successful analysis record built at `main.py` lines 200–208,
without its timestamp field. -/
structure LogAnalysis where
  total_log_events : Nat
  error_count : Nat
  warning_count : Nat
  first_log_event : Option String
  last_log_event : Option String
  successful_completion : Bool
deriving Repr, DecidableEq

/-- The result of `analyze_own_logs`: either the analysis record, or the
error-shaped dict `{"error": msg}` (which carries no counters). -/
inductive LogAnalysisResult
  | analysis (a : LogAnalysis)
  | err (msg : String)
deriving Repr, DecidableEq

/-- Embeds `analyze_own_logs` (`main.py` lines 168–214).  `describeStreams` is
the stream-name list of `describe_log_streams` (prefix-filtered, most
recent first, limit 1), or a raised `ClientError`; `getEvents` is
`get_log_events` for a given stream name.  `events[-1]`/`events[0]` are
guarded by `if events else None` in the source. -/
def analyze_own_logs (describeStreams : Except String (List String))
    (getEvents : String → Except String (List LogEvent)) : LogAnalysisResult :=
  match describeStreams with
  | .error e => .err e
  | .ok [] => .err "No log stream found for self-analysis."
  | .ok (log_stream_name :: _) =>
    match getEvents log_stream_name with
    | .error e => .err e
    | .ok events =>
      let log_messages := events.map (·.message)
      .analysis
        { total_log_events := events.length
          error_count := (log_messages.filter (fun m => strContains m "ERROR")).length
          warning_count := (log_messages.filter (fun m => strContains m "WARNING")).length
          first_log_event := (events.getLast?).map (·.message)
          last_log_event := (events.head?).map (·.message)
          successful_completion := log_messages.any (fun m => strContains m "FINAL JOB SUMMARY") }

/-! ## Job orchestrator -/

/-- The external world as `main` observes it: each provider call's
outcome and the wall clock.  `putObject` is indexed by the key suffix of
the upload that triggers it; `describeInstances` returns reservations,
each holding its instances, as `describe_instances` does. -/
structure Env where
  describeInstances : Except String (List (List EC2Instance))
  describeRules : String → Except String (List SGRule)
  putObject : String → Except String Unit
  describeStreams : Except String (List String)
  getEvents : String → Except String (List LogEvent)
  now : DateTimeUTC
  job_id : String

/-- Embeds `get_ec2_instances` (`main.py` lines 41–56): flatten the
reservations; on a caught `ClientError` return the empty list. -/
def get_ec2_instances (resp : Except String (List (List EC2Instance))) :
    List EC2Instance :=
  match resp with
  | .ok reservations => reservations.flatten
  | .error _ => []

/-- The final combined report (`main.py` lines 260–270), restricted to
the fields the claims mention. -/
structure FinalReport where
  job_id : String
  audit_summary : AuditSummary
  log_analysis : LogAnalysisResult
  status : String
deriving Repr, DecidableEq

/-- Embeds `main` (`main.py` lines 216–281), returning the final report and the
process exit code (`mainJob` because Lean reserves the name `main`).  Upload results are bound but unchecked, as in the
source; `status` is `'SUCCESS' if log_analysis.get('successful_completion')
else 'ANALYSIS_COMPLETED_WITH_WARNINGS'` — on the error-shaped dict
`.get` yields `None`, which is falsy. -/
def mainJob (env : Env) : FinalReport × Nat :=
  let instances := get_ec2_instances env.describeInstances
  let audit_report := generate_audit_report env.describeRules instances
  let _audit_key := upload_to_s3 (env.putObject "report.json") env.now "report.json"
  let _summary_key := upload_to_s3 (env.putObject "summary.md") env.now "summary.md"
  let log_analysis := analyze_own_logs env.describeStreams env.getEvents
  let status :=
    match log_analysis with
    | .analysis a => if a.successful_completion then "SUCCESS"
                     else "ANALYSIS_COMPLETED_WITH_WARNINGS"
    | .err _ => "ANALYSIS_COMPLETED_WITH_WARNINGS"
  let final_report : FinalReport :=
    { job_id := env.job_id
      audit_summary := audit_report.summary
      log_analysis := log_analysis
      status := status }
  let _final_key :=
    upload_to_s3 (env.putObject "final-combined-report.json") env.now
      "final-combined-report.json"
  (final_report, 0)

/-! ## Spec-side predicates and concrete example inputs -/

/-- The spec's per-rule flagging condition, written from its words: the
rule's protocol is TCP, its destination port equals 22 or 3389, and its
source CIDR includes the unrestricted range `0.0.0.0/0`. -/
def SpecFlagged (rule : SGRule) : Prop :=
  rule.IpProtocol = some "tcp" ∧
  (rule.FromPort = some 22 ∨ rule.FromPort = some 3389) ∧
  ∃ c, rule.CidrIpv4 = some c ∧ strContains c "0.0.0.0/0" = true

/-- The spec's key pattern `audit-reports/ec2-audit-\d{8}-\d{6}-<suffix>`,
written from its words: eight digits, a dash, six digits, between the
fixed prefix and the suffix. -/
def AuditKeyPattern (suffix key : String) : Prop :=
  ∃ d8 d6 : List Char, d8.length = 8 ∧ d6.length = 6 ∧
    (∀ c ∈ d8, c.isDigit = true) ∧ (∀ c ∈ d6, c.isDigit = true) ∧
    key = "audit-reports/ec2-audit-" ++ String.mk d8 ++ "-" ++ String.mk d6 ++ "-" ++ suffix

/-- Boolean form of the loop guard `if security_issues:` for an instance. -/
def hasSecIssues (dr : String → Except String (List SGRule)) (i : EC2Instance) : Bool :=
  decide (check_security_groups dr i ≠ [])

/-- Boolean form of the loop guard `if utilization_issues:` for an instance. -/
def hasUtilIssues (i : EC2Instance) : Bool :=
  decide (check_instance_utilization i ≠ [])

/-- SSH rule open to the world (the spec's first example rule). -/
def sshOpenRule : SGRule :=
  { FromPort := some 22, IpProtocol := some "tcp", CidrIpv4 := some "0.0.0.0/0" }

/-- HTTP rule open to the world (the spec's second example rule). -/
def httpOpenRule : SGRule :=
  { FromPort := some 80, IpProtocol := some "tcp", CidrIpv4 := some "0.0.0.0/0" }

/-- SSH rule restricted to a private range (the spec's third example rule). -/
def sshPrivateRule : SGRule :=
  { FromPort := some 22, IpProtocol := some "tcp", CidrIpv4 := some "10.0.0.0/8" }

/-- A running free-tier instance attached to one security group. -/
def auditedInstance : EC2Instance :=
  { InstanceId := "i-1234567890abcdef0", StateName := "running",
    InstanceType := "t2.micro", BlockDeviceMappings := [],
    SecurityGroups := ["sg-12345678"] }

/-- Rule-query response returning the two world-open example rules. -/
def openRulesApi : String → Except String (List SGRule) :=
  fun _ => .ok [sshOpenRule, httpOpenRule]

/-- Rule-query response returning only the private SSH rule. -/
def privateRuleApi : String → Except String (List SGRule) :=
  fun _ => .ok [sshPrivateRule]

/-- A stopped instance with one block-device mapping. -/
def stoppedInstance : EC2Instance :=
  { InstanceId := "i-stopped", StateName := "stopped", InstanceType := "t2.micro",
    BlockDeviceMappings := ["/dev/sda1"], SecurityGroups := [] }

/-- A running non-free-tier instance. -/
def nonFreeInstance : EC2Instance :=
  { InstanceId := "i-nonfree", StateName := "running", InstanceType := "m5.large",
    BlockDeviceMappings := [], SecurityGroups := [] }

/-- A running free-tier instance with no block-device mappings. -/
def freeTierInstance : EC2Instance :=
  { InstanceId := "i-free", StateName := "running", InstanceType := "t3.micro",
    BlockDeviceMappings := [], SecurityGroups := [] }

/-- A sample in-range UTC instant. -/
def sampleTime : DateTimeUTC := ⟨2026, 10, 12, 3, 4, 5⟩

/-! ## Helper lemmas about the report builder loop -/

lemma auditStep_security_issues (dr : String → Except String (List SGRule))
    (r : AuditReport) (inst : EC2Instance) :
    (auditStep dr r inst).security_issues =
      r.security_issues ++
        (if hasSecIssues dr inst then [⟨inst.InstanceId, check_security_groups dr inst⟩]
         else []) := by
  simp only [auditStep, hasSecIssues]
  split_ifs <;> simp_all

lemma auditStep_sec_count (dr : String → Except String (List SGRule))
    (r : AuditReport) (inst : EC2Instance) :
    (auditStep dr r inst).summary.instances_with_security_issues =
      r.summary.instances_with_security_issues +
        (if hasSecIssues dr inst then 1 else 0) := by
  simp only [auditStep, hasSecIssues]
  split_ifs <;> simp_all

lemma auditStep_total (dr : String → Except String (List SGRule))
    (r : AuditReport) (inst : EC2Instance) :
    (auditStep dr r inst).summary.total_instances = r.summary.total_instances := by
  simp only [auditStep]
  split_ifs <;> simp_all

lemma auditStep_utilization_issues (dr : String → Except String (List SGRule))
    (r : AuditReport) (inst : EC2Instance) :
    (auditStep dr r inst).utilization_issues =
      r.utilization_issues ++
        (if hasUtilIssues inst then [⟨inst.InstanceId, check_instance_utilization inst⟩]
         else []) := by
  simp only [auditStep, hasUtilIssues]
  split_ifs <;> simp_all

lemma auditStep_util_count (dr : String → Except String (List SGRule))
    (r : AuditReport) (inst : EC2Instance) :
    (auditStep dr r inst).summary.instances_with_utilization_issues =
      r.summary.instances_with_utilization_issues +
        (if hasUtilIssues inst then 1 else 0) := by
  simp only [auditStep, hasUtilIssues]
  split_ifs <;> simp_all

lemma foldl_auditStep_security (dr : String → Except String (List SGRule))
    (l : List EC2Instance) (r : AuditReport) :
    (l.foldl (auditStep dr) r).security_issues =
      r.security_issues ++ (l.filter (hasSecIssues dr)).map
        (fun i => ⟨i.InstanceId, check_security_groups dr i⟩) := by
  induction l generalizing r with
  | nil => simp
  | cons i l ih =>
    rw [List.foldl_cons, ih, auditStep_security_issues, List.filter_cons]
    split_ifs <;> simp

lemma foldl_auditStep_sec_count (dr : String → Except String (List SGRule))
    (l : List EC2Instance) (r : AuditReport) :
    (l.foldl (auditStep dr) r).summary.instances_with_security_issues =
      r.summary.instances_with_security_issues +
        (l.filter (hasSecIssues dr)).length := by
  induction l generalizing r with
  | nil => simp
  | cons i l ih =>
    rw [List.foldl_cons, ih, auditStep_sec_count, List.filter_cons]
    split_ifs <;> (simp; try omega)

lemma foldl_auditStep_total (dr : String → Except String (List SGRule))
    (l : List EC2Instance) (r : AuditReport) :
    (l.foldl (auditStep dr) r).summary.total_instances =
      r.summary.total_instances := by
  induction l generalizing r with
  | nil => rfl
  | cons i l ih => rw [List.foldl_cons, ih, auditStep_total]

lemma foldl_auditStep_utilization (dr : String → Except String (List SGRule))
    (l : List EC2Instance) (r : AuditReport) :
    (l.foldl (auditStep dr) r).utilization_issues =
      r.utilization_issues ++ (l.filter hasUtilIssues).map
        (fun i => ⟨i.InstanceId, check_instance_utilization i⟩) := by
  induction l generalizing r with
  | nil => simp
  | cons i l ih =>
    rw [List.foldl_cons, ih, auditStep_utilization_issues, List.filter_cons]
    split_ifs <;> simp

lemma foldl_auditStep_util_count (dr : String → Except String (List SGRule))
    (l : List EC2Instance) (r : AuditReport) :
    (l.foldl (auditStep dr) r).summary.instances_with_utilization_issues =
      r.summary.instances_with_utilization_issues +
        (l.filter hasUtilIssues).length := by
  induction l generalizing r with
  | nil => simp
  | cons i l ih =>
    rw [List.foldl_cons, ih, auditStep_util_count, List.filter_cons]
    split_ifs <;> (simp; try omega)

/-- Closed form of `generate_audit_report`: the findings lists collect,
in listing order, one entry per instance whose evaluator returned a
non-empty result, and each counter is the length of the matching
filtered instance list. -/
lemma generate_audit_report_characterization
    (dr : String → Except String (List SGRule)) (instances : List EC2Instance) :
    (generate_audit_report dr instances).summary.total_instances = instances.length ∧
    (generate_audit_report dr instances).security_issues =
      (instances.filter (hasSecIssues dr)).map
        (fun i => ⟨i.InstanceId, check_security_groups dr i⟩) ∧
    (generate_audit_report dr instances).summary.instances_with_security_issues =
      (instances.filter (hasSecIssues dr)).length ∧
    (generate_audit_report dr instances).utilization_issues =
      (instances.filter hasUtilIssues).map
        (fun i => ⟨i.InstanceId, check_instance_utilization i⟩) ∧
    (generate_audit_report dr instances).summary.instances_with_utilization_issues =
      (instances.filter hasUtilIssues).length := by
  unfold generate_audit_report
  refine ⟨?_, ?_, ?_, ?_, ?_⟩
  · rw [foldl_auditStep_total]
  · rw [foldl_auditStep_security]; simp
  · rw [foldl_auditStep_sec_count]; simp
  · rw [foldl_auditStep_utilization]; simp
  · rw [foldl_auditStep_util_count]; simp

/-! ## Helper lemmas about digit formatting -/

lemma padChars_length (w n : Nat) : (padChars w n).length = w := by
  induction w generalizing n with
  | zero => rfl
  | succ w ih => simp [padChars, ih]

lemma digitChar_isDigit (k : Nat) (hk : k < 10) : (Char.ofNat (48 + k)).isDigit = true := by
  interval_cases k <;> decide

lemma padChars_digits (w n : Nat) : ∀ c ∈ padChars w n, c.isDigit = true := by
  induction w generalizing n with
  | zero => intro c hc; cases hc
  | succ w ih =>
    intro c hc
    simp only [padChars, List.mem_append, List.mem_singleton] at hc
    rcases hc with hc | hc
    · exact ih _ c hc
    · rw [hc]; exact digitChar_isDigit _ (Nat.mod_lt _ (by norm_num))

/-! ## Claim theorems -/

/-- Claim C1: the security evaluator emits a finding for a rule if and
only if the rule's protocol is TCP, its port equals 22 or 3389, and its
source CIDR includes the unrestricted range `0.0.0.0/0`; on the rule
list `[{port 22, tcp, 0.0.0.0/0}, {port 80, tcp, 0.0.0.0/0}]` it returns
exactly one finding (for port 22), and on a single rule with port 22,
tcp, and CIDR `10.0.0.0/8` it returns zero findings. -/
theorem security_flag_iff_open_ssh_rdp (sg_id : String) (rule : SGRule) :
    ((ruleFinding sg_id rule).isSome = true ↔ SpecFlagged rule) ∧
    check_security_groups openRulesApi auditedInstance =
      [{ SecurityGroupId := "sg-12345678", Port := 22, Protocol := "tcp",
         CIDR := some "0.0.0.0/0" }] ∧
    check_security_groups privateRuleApi auditedInstance = [] := by
  refine ⟨?_, by decide, by decide⟩
  obtain ⟨fp, proto, cidr⟩ := rule
  cases cidr with
  | none =>
    have h : strContains "" "0.0.0.0/0" = false := by decide
    simp [ruleFinding, SpecFlagged, h]
  | some c =>
    simp only [ruleFinding, SpecFlagged, Option.getD]
    split_ifs with h1 h2 <;> simp_all
    tauto

/-- Claim C2, counterexample: with the same instance listed twice (both
occurrences carrying a world-open SSH rule), the security counter is 2
while only 1 distinct instance identifier appears in the security
findings list, so the counter does not equal the number of distinct
identifiers. -/
theorem audit_count_distinct_ids_counterexample :
    (generate_audit_report openRulesApi
        [auditedInstance, auditedInstance]).summary.instances_with_security_issues = 2 ∧
    (((generate_audit_report openRulesApi
        [auditedInstance, auditedInstance]).security_issues.map
          (·.instance_id)).dedup).length = 1 ∧
    ¬ ((generate_audit_report openRulesApi
        [auditedInstance, auditedInstance]).summary.instances_with_security_issues =
       (((generate_audit_report openRulesApi
        [auditedInstance, auditedInstance]).security_issues.map
          (·.instance_id)).dedup).length) := by
  refine ⟨by decide, by decide, by decide⟩

/-- Claim C2, amended: when the listed instances carry pairwise distinct
identifiers (the situation the spec describes), each summary count in
the audit report equals the number of distinct instance identifiers
appearing in the corresponding findings list; in general each count
equals the number of entries of that findings list. -/
theorem audit_count_distinct_ids_of_nodup
    (dr : String → Except String (List SGRule)) (instances : List EC2Instance)
    (h : (instances.map (·.InstanceId)).Nodup) :
    (generate_audit_report dr instances).summary.instances_with_security_issues =
      (((generate_audit_report dr instances).security_issues.map
        (·.instance_id)).dedup).length ∧
    (generate_audit_report dr instances).summary.instances_with_utilization_issues =
      (((generate_audit_report dr instances).utilization_issues.map
        (·.instance_id)).dedup).length := by
  obtain ⟨h1, h2, h3, h4, h5⟩ := generate_audit_report_characterization dr instances
  constructor
  · rw [h2, h3, List.map_map]
    have hsub : ((instances.filter (hasSecIssues dr)).map (·.InstanceId)).Sublist
        (instances.map (·.InstanceId)) := (List.filter_sublist instances).map _
    have hnd : ((instances.filter (hasSecIssues dr)).map (·.InstanceId)).Nodup :=
      hsub.nodup h
    have hmap : ((instances.filter (hasSecIssues dr)).map
        ((fun e => e.instance_id) ∘
          (fun i => (⟨i.InstanceId, check_security_groups dr i⟩ :
            FindingEntry SecurityFinding)))) =
        (instances.filter (hasSecIssues dr)).map (·.InstanceId) := rfl
    rw [hmap, List.dedup_eq_self.mpr hnd, List.length_map]
  · rw [h4, h5, List.map_map]
    have hsub : ((instances.filter hasUtilIssues).map (·.InstanceId)).Sublist
        (instances.map (·.InstanceId)) := (List.filter_sublist instances).map _
    have hnd : ((instances.filter hasUtilIssues).map (·.InstanceId)).Nodup :=
      hsub.nodup h
    have hmap : ((instances.filter hasUtilIssues).map
        ((fun e => e.instance_id) ∘
          (fun i => (⟨i.InstanceId, check_instance_utilization i⟩ :
            FindingEntry UtilizationFinding)))) =
        (instances.filter hasUtilIssues).map (·.InstanceId) := rfl
    rw [hmap, List.dedup_eq_self.mpr hnd, List.length_map]

/-- Claim C2, witness for the amended theorem at a concrete one-instance
list with a distinct identifier. -/
theorem audit_count_distinct_ids_of_nodup_witness :
    (generate_audit_report openRulesApi
        [auditedInstance]).summary.instances_with_security_issues =
      (((generate_audit_report openRulesApi
        [auditedInstance]).security_issues.map (·.instance_id)).dedup).length ∧
    (generate_audit_report openRulesApi
        [auditedInstance]).summary.instances_with_utilization_issues =
      (((generate_audit_report openRulesApi
        [auditedInstance]).utilization_issues.map (·.instance_id)).dedup).length :=
  audit_count_distinct_ids_of_nodup openRulesApi [auditedInstance] (by decide)

/-- Claim C3: a stopped instance with at least one block-device mapping
gets exactly one STOPPED_INSTANCE finding and no NON_FREE_TIER_TYPE
finding from the utilization evaluator. -/
theorem stopped_instance_exactly_one_finding (inst : EC2Instance)
    (hstate : inst.StateName = "stopped") (hbdm : inst.BlockDeviceMappings ≠ []) :
    (check_instance_utilization inst).countP (fun f => f.issue == "STOPPED_INSTANCE") = 1 ∧
    (check_instance_utilization inst).countP (fun f => f.issue == "NON_FREE_TIER_TYPE") = 0 := by
  simp [check_instance_utilization, hstate, hbdm, List.countP_cons]

/-- Claim C3, witness at a concrete stopped instance with one mapping. -/
theorem stopped_instance_exactly_one_finding_witness :
    (check_instance_utilization stoppedInstance).countP
      (fun f => f.issue == "STOPPED_INSTANCE") = 1 ∧
    (check_instance_utilization stoppedInstance).countP
      (fun f => f.issue == "NON_FREE_TIER_TYPE") = 0 :=
  stopped_instance_exactly_one_finding stoppedInstance rfl (by decide)

/-- Claim C4: a running instance whose type is outside
`{t2.micro, t3.micro, t4g.micro}` gets exactly one NON_FREE_TIER_TYPE
finding; a running instance with an allow-listed type and no
block-device mappings gets zero utilization findings. -/
theorem running_nonfree_exactly_one_finding (inst : EC2Instance)
    (hrun : inst.StateName = "running") :
    (inst.InstanceType ∉ free_tier_types →
      (check_instance_utilization inst).countP
        (fun f => f.issue == "NON_FREE_TIER_TYPE") = 1) ∧
    (inst.InstanceType ∈ free_tier_types → inst.BlockDeviceMappings = [] →
      check_instance_utilization inst = []) := by
  constructor
  · intro hty
    simp [check_instance_utilization, hrun, hty, List.countP_cons]
  · intro hty _
    simp [check_instance_utilization, hrun, hty]

/-- Claim C4, witness at a concrete running `m5.large` instance and a
concrete running `t3.micro` instance without mappings. -/
theorem running_nonfree_exactly_one_finding_witness :
    (check_instance_utilization nonFreeInstance).countP
      (fun f => f.issue == "NON_FREE_TIER_TYPE") = 1 ∧
    check_instance_utilization freeTierInstance = [] :=
  ⟨(running_nonfree_exactly_one_finding nonFreeInstance rfl).1 (by decide),
   (running_nonfree_exactly_one_finding freeTierInstance rfl).2 (by decide) rfl⟩

/-- Claim C5: for every fetched event sequence, the self-log analysis
reports the sequence length as total count, the number of events whose
text contains "ERROR" (resp. "WARNING") as error (resp. warning) count,
the last event in fetch order as first event, the first in fetch order
as last event, and a completion flag that is true iff some event's text
contains "FINAL JOB SUMMARY"; on a 2-event fetch with one "ERROR" event,
`error_count` is 1 and `total_log_events` is 2. -/
theorem log_analysis_counts (stream : String) (events : List LogEvent) :
    (analyze_own_logs (.ok [stream]) (fun _ => .ok events) =
      .analysis
        { total_log_events := events.length
          error_count :=
            ((events.map (·.message)).filter (fun m => strContains m "ERROR")).length
          warning_count :=
            ((events.map (·.message)).filter (fun m => strContains m "WARNING")).length
          first_log_event := (events.getLast?).map (·.message)
          last_log_event := (events.head?).map (·.message)
          successful_completion :=
            (events.map (·.message)).any (fun m => strContains m "FINAL JOB SUMMARY") }) ∧
    ((events.map (·.message)).any (fun m => strContains m "FINAL JOB SUMMARY") = true ↔
      ∃ e ∈ events, strContains e.message "FINAL JOB SUMMARY" = true) ∧
    analyze_own_logs (.ok ["stream-a"])
        (fun _ => .ok [⟨"all good"⟩, ⟨"ERROR: boom"⟩]) =
      .analysis
        { total_log_events := 2, error_count := 1, warning_count := 0
          first_log_event := some "ERROR: boom", last_log_event := some "all good"
          successful_completion := false } := by
  refine ⟨rfl, ?_, by decide⟩
  simp [List.any_eq_true]

/-- Claim C6: when no log stream matches, and when a provider error is
raised during stream lookup or event fetch, the self-log analyzer
returns the error-shaped result (which carries no counters) instead of
raising. -/
theorem log_analysis_error_shaped (e : String)
    (ge : String → Except String (List LogEvent)) (s : String) (rest : List String) :
    analyze_own_logs (.error e) ge = .err e ∧
    analyze_own_logs (.ok []) ge = .err "No log stream found for self-analysis." ∧
    analyze_own_logs (.ok (s :: rest)) (fun _ => .error e) = .err e ∧
    (∀ (msg : String) (a : LogAnalysis), LogAnalysisResult.err msg ≠ .analysis a) := by
  refine ⟨rfl, rfl, rfl, ?_⟩
  intro msg a h
  cases h

/-- Claim C7: for every in-range UTC instant and suffix, a successful
upload returns a key of the form
`audit-reports/ec2-audit-<8 digits>-<6 digits>-<suffix>`, and a
provider-side write failure makes `upload_to_s3` return `none` instead
of raising. -/
theorem upload_key_pattern (now : DateTimeUTC) (_hv : now.Valid) (suffix : String) :
    (∃ key, upload_to_s3 (.ok ()) now suffix = some key ∧ AuditKeyPattern suffix key) ∧
    (∀ e, upload_to_s3 (.error e) now suffix = none) := by
  constructor
  · refine ⟨_, rfl, ?_⟩
    refine ⟨padChars 4 now.year ++ padChars 2 now.month ++ padChars 2 now.day,
            padChars 2 now.hour ++ padChars 2 now.minute ++ padChars 2 now.second,
            by simp [padChars_length], by simp [padChars_length], ?_, ?_, ?_⟩
    · intro c hc
      simp only [List.mem_append] at hc
      rcases hc with (hc | hc) | hc <;> exact padChars_digits _ _ c hc
    · intro c hc
      simp only [List.mem_append] at hc
      rcases hc with (hc | hc) | hc <;> exact padChars_digits _ _ c hc
    · apply String.ext
      simp [upload_to_s3, strftimeYmdHMS, String.data_append]
  · intro e; rfl

/-- Claim C7, witness at a concrete valid instant and suffix. -/
theorem upload_key_pattern_witness :
    sampleTime.Valid ∧
    ((∃ key, upload_to_s3 (.ok ()) sampleTime "report.json" = some key ∧
        AuditKeyPattern "report.json" key) ∧
     (∀ e, upload_to_s3 (.error e) sampleTime "report.json" = none)) :=
  ⟨by decide, upload_key_pattern sampleTime (by decide) "report.json"⟩

/-- Claim C8: whenever the orchestrator reaches its end, the exit code
is 0, the final status is SUCCESS exactly when the log analysis is a
successful analysis whose completion flag is set, and otherwise (error-
shaped analysis included) the status is the degraded, non-failing
ANALYSIS_COMPLETED_WITH_WARNINGS; no guarded sub-failure yields a
failure exit code. -/
theorem orchestrator_exit_zero_status (env : Env) :
    (mainJob env).2 = 0 ∧
    ((mainJob env).1.status = "SUCCESS" ↔
      ∃ a, analyze_own_logs env.describeStreams env.getEvents = .analysis a ∧
        a.successful_completion = true) ∧
    ((mainJob env).1.status = "SUCCESS" ∨
      (mainJob env).1.status = "ANALYSIS_COMPLETED_WITH_WARNINGS") := by
  refine ⟨rfl, ?_, ?_⟩ <;>
  · rcases h : analyze_own_logs env.describeStreams env.getEvents with a | msg
    · rcases hb : a.successful_completion <;> simp +decide [mainJob, h, hb]
    · simp +decide [mainJob, h]

/-- Claim C9: for every input instance list, `total_instances` equals
the input length and each issue counter equals the number of entries of
the corresponding findings list (one entry per input-list position with
findings, identifiers not deduplicated). -/
theorem audit_counts_track_findings_entries
    (dr : String → Except String (List SGRule)) (instances : List EC2Instance) :
    (generate_audit_report dr instances).summary.total_instances = instances.length ∧
    (generate_audit_report dr instances).summary.instances_with_security_issues =
      (generate_audit_report dr instances).security_issues.length ∧
    (generate_audit_report dr instances).summary.instances_with_utilization_issues =
      (generate_audit_report dr instances).utilization_issues.length := by
  obtain ⟨h1, h2, h3, h4, h5⟩ := generate_audit_report_characterization dr instances
  refine ⟨h1, ?_, ?_⟩
  · rw [h2, h3, List.length_map]
  · rw [h4, h5, List.length_map]

/-- Claim C10: a rule without an IPv4 CIDR field never yields a security
finding, whatever its port and protocol — in particular not for tcp
rules on ports 22 and 3389. -/
theorem missing_cidr_no_finding (sg_id : String) (fp : Option Int)
    (proto : Option String) :
    ruleFinding sg_id { FromPort := fp, IpProtocol := proto, CidrIpv4 := none } = none ∧
    checkGroupRules sg_id
      [{ FromPort := some 22, IpProtocol := some "tcp", CidrIpv4 := none },
       { FromPort := some 3389, IpProtocol := some "tcp", CidrIpv4 := none }] = [] := by
  have h : strContains "" "0.0.0.0/0" = false := by decide
  constructor
  · simp [ruleFinding, h]
  · simp [checkGroupRules, ruleFinding, h]
